import Mathlib

/-!
# Verification of the lab-assistant calculation library

Shallow embedding of the repository's calculation and storage modules
(`utils.py`, `biochem.py`, `micro.py`, `culture.py`, `forensics.py`,
`storage.py`) and proofs about them.

Conventions of the embedding:
* Python floats are idealised as exact rationals (`ℚ`) except where a
  transcendental function (`math.log`) forces real numbers (`ℝ`).
* A Python function that can raise is embedded as `Except String α`; the
  string carries the exception message.  A `ZeroDivisionError` (which in the
  source is *not* a `ValueError` and is not caught by the callers'
  `except ValueError` handlers) is modelled as an `Except.error` whose message
  starts with `ZeroDivisionError`.
* The JSON files on disk are modelled as explicit state values threaded
  through the storage operations; `none` models a missing (or unparseable)
  file.
-/

deriving instance DecidableEq for Except

namespace LabAsst

/-! ## utils.py -/

/-- Embedding of `utils.validate_positive_number`.  The Python function first
tries `float(value)`; an unparseable input is modelled by `none` and a
successfully parsed number by `some num`.  A parsed number strictly below
zero is rejected; everything else (zero included) is returned unchanged. -/
def validate_positive_number {α : Type} [LinearOrderedField α] (value : Option α) :
    Except String α :=
  match value with
  | none => .error "Invalid input: please enter a valid number"
  | some num =>
    if num < 0 then .error "Values must be non-negative"
    else .ok num

theorem validate_ok {α : Type} [LinearOrderedField α] {q : α} (h : 0 ≤ q) :
    validate_positive_number (some q) = .ok q := by
  simp only [validate_positive_number]
  rw [if_neg (not_lt.mpr h)]

theorem validate_err {α : Type} [LinearOrderedField α] {q : α} (h : q < 0) :
    validate_positive_number (some q) = .error "Values must be non-negative" := by
  simp only [validate_positive_number]
  rw [if_pos h]

/-! ## String helpers

`forensics.dna_normalization_calculator` uses `str.replace` with a
single-character pattern and `str.lower`.  For a single-character pattern,
Python's `str.replace` is a character-wise substitution; `str.lower` on the
unit strings involved only lowercases ASCII letters. -/

/-- Model of Python `s.replace(a, b)` for a single-character pattern `a`. -/
def replace_char (s : String) (a b : Char) : String :=
  String.mk (s.data.map fun c => if c = a then b else c)

/-- Model of Python `s.lower()` on the ASCII range (sufficient for the unit
strings compared by the source: only ASCII letters change case there). -/
def ascii_lower (s : String) : String :=
  String.mk (s.data.map fun c =>
    if 'A' ≤ c ∧ c ≤ 'Z' then Char.ofNat (c.toNat + 32) else c)

/-! ## forensics.py -/

/-- Result dictionary of `forensics.normalize_dna` (the presentation-only
`message` string, an f-string rendering of the flag, is not modelled). -/
structure NormalizeDNAResult where
  dna_volume_ul : ℚ
  te_volume_ul : ℚ
  needs_predilution : Bool
  deriving Repr, DecidableEq

/-- Embedding of `forensics.normalize_dna`.  All three inputs go through
`validate_positive_number`; a zero (validated) initial concentration would
make Python's division raise `ZeroDivisionError`. -/
def normalize_dna (initial_conc target_conc target_total_volume : ℚ) :
    Except String NormalizeDNAResult :=
  match validate_positive_number (some initial_conc) with
  | .error e => .error e
  | .ok initial_conc =>
  match validate_positive_number (some target_conc) with
  | .error e => .error e
  | .ok target_conc =>
  match validate_positive_number (some target_total_volume) with
  | .error e => .error e
  | .ok target_total_volume =>
  if target_conc ≤ 0 then .error "Target concentration must be > 0"
  else if initial_conc = 0 then .error "ZeroDivisionError: float division by zero"
  else
    let dna_volume_ul := target_conc * target_total_volume / initial_conc
    let te_volume_ul := target_total_volume - dna_volume_ul
    .ok ⟨dna_volume_ul, te_volume_ul, decide (dna_volume_ul < 1)⟩

/-- Embedding of `forensics.dna_normalization_calculator`.  `conc_unit` is
first mapped through `replace('u', 'µ')`; the `nM` branch needs a fragment
length, the `ng/µL` branch passes concentrations through unchanged.  The
final check rejects targets that would require concentrating the sample. -/
def dna_normalization_calculator (current_conc current_volume_ul target_conc : ℚ)
    (conc_unit : String) (fragment_bp : Option ℚ) : Except String (ℚ × ℚ) :=
  match validate_positive_number (some current_conc) with
  | .error e => .error e
  | .ok current_conc =>
  match validate_positive_number (some current_volume_ul) with
  | .error e => .error e
  | .ok current_vol =>
  match validate_positive_number (some target_conc) with
  | .error e => .error e
  | .ok target_conc =>
  let unit := replace_char conc_unit 'u' 'µ'
  let concs : Except String (ℚ × ℚ) :=
    if ascii_lower unit = "nm" then
      match fragment_bp with
      | none => .error "Fragment length (bp) is required for nM conversions"
      | some fb =>
        match validate_positive_number (some fb) with
        | .error e => .error e
        | .ok bp =>
          let mw := 660 * bp
          .ok (current_conc * mw * (1 / 1000000), target_conc * mw * (1 / 1000000))
    else if unit = "ng/µL" ∨ unit = "ng/uL" ∨ unit = "ng/μL" then
      .ok (current_conc, target_conc)
    else .error "Use \"ng/µL\" or \"nM\""
  match concs with
  | .error e => .error e
  | .ok (current_ng_per_ul, target_ng_per_ul) =>
  if target_ng_per_ul ≤ 0 then .error "Target concentration must be > 0"
  else
    let total_dna_ng := current_ng_per_ul * current_vol
    let final_volume_ul := total_dna_ng / target_ng_per_ul
    if final_volume_ul < current_vol - 1 / 1000000000 then
      .error "Cannot concentrate by dilution; use evaporation instead"
    else .ok (final_volume_ul, final_volume_ul - current_vol)

/-! ## biochem.py -/

/-- Embedding of `biochem.convert_molarity` (M ↔ mM). -/
def convert_molarity (value : ℚ) (from_unit to_unit : String) : Except String ℚ :=
  match validate_positive_number (some value) with
  | .error e => .error e
  | .ok value =>
  let value_in_molar : Except String ℚ :=
    if from_unit = "M" then .ok value
    else if from_unit = "mM" then .ok (value / 1000)
    else .error ("Unknown molarity unit: " ++ from_unit)
  match value_in_molar with
  | .error e => .error e
  | .ok value_in_molar =>
  if to_unit = "M" then .ok value_in_molar
  else if to_unit = "mM" then .ok (value_in_molar * 1000)
  else .error ("Unknown molarity unit: " ++ to_unit)

/-- Embedding of `biochem.convert_mass` (g ↔ mg). -/
def convert_mass (value : ℚ) (from_unit to_unit : String) : Except String ℚ :=
  match validate_positive_number (some value) with
  | .error e => .error e
  | .ok value =>
  let value_in_grams : Except String ℚ :=
    if from_unit = "g" then .ok value
    else if from_unit = "mg" then .ok (value / 1000)
    else .error ("Unknown mass unit: " ++ from_unit)
  match value_in_grams with
  | .error e => .error e
  | .ok value_in_grams =>
  if to_unit = "g" then .ok value_in_grams
  else if to_unit = "mg" then .ok (value_in_grams * 1000)
  else .error ("Unknown mass unit: " ++ to_unit)

/-- Embedding of `biochem.convert_volume` (L ↔ µL); unit strings are first
mapped through `replace('µ', 'u')`. -/
def convert_volume (value : ℚ) (from_unit to_unit : String) : Except String ℚ :=
  match validate_positive_number (some value) with
  | .error e => .error e
  | .ok value =>
  let from_unit := replace_char from_unit 'µ' 'u'
  let to_unit := replace_char to_unit 'µ' 'u'
  let value_in_liters : Except String ℚ :=
    if from_unit = "L" then .ok value
    else if from_unit = "uL" then .ok (value / 1000000)
    else .error ("Unknown volume unit: " ++ from_unit)
  match value_in_liters with
  | .error e => .error e
  | .ok value_in_liters =>
  if to_unit = "L" then .ok value_in_liters
  else if to_unit = "uL" then .ok (value_in_liters * 1000000)
  else .error ("Unknown volume unit: " ++ to_unit)

/-- Embedding of `biochem.convert_concentration` (ng/µL, ng/mL, pg/µL); the
base unit is ng/µL. -/
def convert_concentration (value : ℚ) (from_unit to_unit : String) : Except String ℚ :=
  match validate_positive_number (some value) with
  | .error e => .error e
  | .ok val =>
  let fu := replace_char from_unit 'µ' 'u'
  let tu := replace_char to_unit 'µ' 'u'
  if ¬(fu = "ng/uL" ∨ fu = "ng/mL" ∨ fu = "pg/uL") then
    .error ("Unsupported from-unit: " ++ from_unit)
  else if ¬(tu = "ng/uL" ∨ tu = "ng/mL" ∨ tu = "pg/uL") then
    .error ("Unsupported to-unit: " ++ to_unit)
  else
    let base :=
      if fu = "ng/uL" then val
      else if fu = "ng/mL" then val / 1000
      else val / 1000
    if tu = "ng/uL" then .ok base
    else if tu = "ng/mL" then .ok (base * 1000)
    else .ok (base * 1000)

/-- Embedding of `biochem.serial_dilution`.  `num_steps` arrives as a float
in the source, so the model keeps it rational and checks
`int(num_steps) != num_steps or num_steps < 1` as `den ≠ 1 ∨ < 1`.  The
returned tuple carries the per-step rows `(step, concentration,
sample_volume, diluent_volume)` followed by the echoed scalars and units. -/
def serial_dilution (starting_conc dilution_factor num_steps final_volume : ℚ)
    (conc_unit vol_unit : String) :
    Except String (List (ℕ × ℚ × ℚ × ℚ) × ℚ × ℚ × ℚ × String × String) :=
  match validate_positive_number (some starting_conc) with
  | .error e => .error e
  | .ok starting_conc =>
  match validate_positive_number (some dilution_factor) with
  | .error e => .error e
  | .ok dilution_factor =>
  match validate_positive_number (some num_steps) with
  | .error e => .error e
  | .ok num_steps =>
  match validate_positive_number (some final_volume) with
  | .error e => .error e
  | .ok final_volume =>
  if dilution_factor ≤ 1 then .error "Dilution factor must be greater than 1"
  else if num_steps.den ≠ 1 ∨ num_steps < 1 then
    .error "Number of steps must be a positive integer"
  else
    let n := num_steps.num.toNat
    let sample_volume := final_volume / dilution_factor
    let diluent_volume := final_volume - sample_volume
    let results := (List.range n).map fun i =>
      (i + 1, starting_conc / dilution_factor ^ (i + 1), sample_volume, diluent_volume)
    .ok (results, starting_conc, sample_volume, diluent_volume, conc_unit, vol_unit)

/-! ## culture.py -/

/-- Embedding of `culture.tissue_culture_calculator`; returns
`(cells_per_ml, total_cells_in_flask, volume_needed_ul)`.  When the computed
`cells_per_ml` is zero the source's division raises `ZeroDivisionError`. -/
def tissue_culture_calculator (cells_counted dilution_factor seeding_density
    total_volume_ml : ℚ) : Except String (ℚ × ℚ × ℚ) :=
  match validate_positive_number (some cells_counted) with
  | .error e => .error e
  | .ok cells_counted =>
  match validate_positive_number (some dilution_factor) with
  | .error e => .error e
  | .ok dilution_factor =>
  match validate_positive_number (some seeding_density) with
  | .error e => .error e
  | .ok seeding_density =>
  match validate_positive_number (some total_volume_ml) with
  | .error e => .error e
  | .ok total_volume_ml =>
  let cells_per_ml := cells_counted / 4 * dilution_factor * 10000
  if cells_per_ml = 0 then .error "ZeroDivisionError: float division by zero"
  else
    let volume_needed_ml := seeding_density * total_volume_ml / cells_per_ml
    .ok (cells_per_ml, seeding_density * total_volume_ml, volume_needed_ml * 1000)

/-! ## micro.py -/

/-- Embedding of `micro.generation_time_calculator` over `ℝ` (the source
uses `math.log(N/N0, 2)`).  When the final count does not exceed the start
a `ValueError` is raised; when `N0 = 0` slipped through validation (it is
non-negative) the division `N/N0` raises `ZeroDivisionError`, which is not
a `ValueError` and escapes the callers' handlers. -/
noncomputable def generation_time_calculator (N0 N t : ℝ) : Except String (ℝ × ℝ) :=
  match validate_positive_number (some N0) with
  | .error e => .error e
  | .ok N0_v =>
  match validate_positive_number (some N) with
  | .error e => .error e
  | .ok N_v =>
  match validate_positive_number (some t) with
  | .error e => .error e
  | .ok t_v =>
  if N_v ≤ N0_v then .error "Final count must be greater than starting count"
  else if N0_v = 0 then .error "ZeroDivisionError: float division by zero"
  else
    let generations := Real.logb 2 (N_v / N0_v)
    .ok (generations, t_v / generations)

/-! ## storage.py

The two JSON files are modelled as explicit state: `none` is a missing (or
unparseable) file, `some v` a file whose JSON parses to `v`.  History
records are modelled by the `Entry` structure below, which covers the
fields the application reads and writes; `details` carries the numeric
fields of a Microbiology record (`N0`, `time_elapsed`, and after
finalization `N`, `generations`, `doubling_time`). -/

/-- The `details` dictionary of a history record, as written by the
Microbiology module (optional fields are `none` until finalization). -/
structure Details where
  N0 : ℝ
  time_elapsed : ℝ
  N : Option ℝ := none
  generations : Option ℝ := none
  doubling_time : Option ℝ := none

/-- A history record (`HistoryRecord` of the spec's data model). -/
structure Entry where
  timestamp : String := ""
  module : String
  summary : String := ""
  details : Details
  status : String
  completed_timestamp : Option String := none

/-- Embedding of `storage.load_history`: a missing file — and likewise an
unparseable one, both modelled by `none` — yields the empty list; no
exception escapes. -/
def load_history (fs : Option (List Entry)) : List Entry :=
  fs.getD []

/-- Embedding of `storage.save_history_entry`: load, append, rewrite the
whole file.  Returns the new file state. -/
def save_history_entry (fs : Option (List Entry)) (entry : Entry) : Option (List Entry) :=
  some (load_history fs ++ [entry])

/-- A reagent-price record as written by `storage.update_reagent_price`:
both keys are always present. -/
structure ReagentInfo where
  price_per_unit : ℚ
  unit : String
  deriving Repr, DecidableEq

/-- The reagent JSON object, modelled as an association list (reagent names
are unique keys). -/
abbrev Reagents := List (String × ReagentInfo)

/-- Embedding of `storage.load_reagents`: a missing (or unparseable) file
yields the empty mapping; no exception escapes. -/
def load_reagents (fs : Option Reagents) : Reagents :=
  fs.getD []

/-- Embedding of `storage.get_reagent_price`: dictionary lookup, `none`
when the name is absent. -/
def get_reagent_price (fs : Option Reagents) (name : String) : Option ReagentInfo :=
  (load_reagents fs).lookup name

/-- Embedding of `storage.compute_cost_for_volume`.  (`if not info` in the
source is the `none` case here: a record written by the app is a non-empty
dict, hence truthy.) -/
def compute_cost_for_volume (fs : Option Reagents) (name : String) (volume_ul : ℚ) :
    Option ℚ :=
  match get_reagent_price fs name with
  | none => none
  | some info =>
    if info.unit = "uL" then some (info.price_per_unit * volume_ul)
    else if info.unit = "mL" then some (info.price_per_unit * (volume_ul / 1000))
    else some (info.price_per_unit * volume_ul)

/-- The record update performed by the finalize path of
`storage.display_history` on a pending Microbiology entry. -/
noncomputable def finalizedEntry (entry : Entry) (final_N : ℝ) (now : String) : Entry :=
  { entry with
    details := { entry.details with
      N := some final_N
      generations := some (Real.logb 2 (final_N / entry.details.N0))
      doubling_time := some (entry.details.time_elapsed /
        Real.logb 2 (final_N / entry.details.N0)) }
    status := "completed"
    completed_timestamp := some now }

/-- Embedding of the finalize path of `storage.display_history`: the user
selects (1-based) display index `idxi + 1` and supplies a final count.  On
any failure — index out of range, not a pending Microbiology record,
negative or unparseable final count (`validate_positive_number` raises), or
`generation_time_calculator` failing — the file is left unchanged (the
`ZeroDivisionError` case additionally crashes the process in the source,
but before any write).  On success the selected record alone is rewritten
in place. -/
noncomputable def finalize_pending (history : List Entry) (idxi : ℕ) (final_N : ℝ)
    (now : String) : List Entry :=
  match history.get? idxi with
  | none => history
  | some entry =>
    if ¬(entry.module = "Microbiology" ∧ entry.status = "pending") then history
    else
      match validate_positive_number (some final_N) with
      | .error _ => history
      | .ok final_N_v =>
        match generation_time_calculator entry.details.N0 final_N_v
            entry.details.time_elapsed with
        | .error _ => history
        | .ok (gens, dt) =>
          history.set idxi
            { entry with
              details := { entry.details with
                N := some final_N_v
                generations := some gens
                doubling_time := some dt }
              status := "completed"
              completed_timestamp := some now }


/-- A pending Microbiology record as written by the pending branch of
`micro.display_generation_time` (starting count 4, elapsed time 2). -/
def sampleEntry : Entry :=
  { timestamp := "t0"
    module := "Microbiology"
    summary := "Pending experiment"
    details := { N0 := 4, time_elapsed := 2 }
    status := "pending" }

/-! ## Theorems for the claims -/

/-- C3: for every prior file state, appending an entry with
`save_history_entry` and then reading with `load_history` yields exactly the
prior history with the new entry appended at the end; earlier records are
unchanged and keep their order. -/
theorem history_append_roundtrip (fs : Option (List Entry)) (e : Entry) :
    load_history (save_history_entry fs e) = load_history fs ++ [e] := rfl

/-- C5: for positive initial and target concentrations and non-negative
total volume, `normalize_dna` returns `dna_volume_ul = target · volume /
initial`, `te_volume_ul = volume - dna_volume_ul`, and flags
`needs_predilution` exactly when `dna_volume_ul < 1`. -/
theorem normalize_dna_spec (i t V : ℚ) (hi : 0 < i) (ht : 0 < t) (hV : 0 ≤ V) :
    normalize_dna i t V = .ok ⟨t * V / i, V - t * V / i, decide (t * V / i < 1)⟩ ∧
    (decide (t * V / i < 1) = true ↔ t * V / i < 1) := by
  constructor
  · simp only [normalize_dna, validate_ok hi.le, validate_ok ht.le, validate_ok hV]
    rw [if_neg (not_le.mpr ht), if_neg hi.ne']
  · exact decide_eq_true_iff

/-- C5 witness: `normalize_dna 2 1 10` yields 5 µL of DNA, 5 µL of TE and
no pre-dilution flag. -/
theorem normalize_dna_spec_witness :
    normalize_dna 2 1 10 = .ok ⟨5, 5, false⟩ := by
  have h := (normalize_dna_spec 2 1 10 (by norm_num) (by norm_num) (by norm_num)).1
  rw [h]
  norm_num

/-- C8: when the backing file is absent (`none`), `load_history` returns
the empty history and `load_reagents` the empty mapping; both are total
functions, so no exception reaches the caller. -/
theorem missing_file_empty_state :
    load_history none = [] ∧ load_reagents none = [] :=
  ⟨rfl, rfl⟩

/-- C9: `compute_cost_for_volume` returns `none` for an unknown reagent;
for a reagent stored per µL it returns `price · volume`, and for one stored
per mL it returns `price · (volume / 1000)` — the price times the volume
converted to the stored unit. -/
theorem compute_cost_spec (fs : Option Reagents) (name : String) (v : ℚ) :
    (get_reagent_price fs name = none → compute_cost_for_volume fs name v = none) ∧
    (∀ p, get_reagent_price fs name = some ⟨p, "uL"⟩ →
      compute_cost_for_volume fs name v = some (p * v)) ∧
    (∀ p, get_reagent_price fs name = some ⟨p, "mL"⟩ →
      compute_cost_for_volume fs name v = some (p * (v / 1000))) := by
  refine ⟨fun h => ?_, fun p h => ?_, fun p h => ?_⟩ <;>
    simp [compute_cost_for_volume, h]

/-- C9 witness: on a concrete two-reagent table, an unknown name costs
`none`, a per-µL reagent costs `price · volume` and a per-mL reagent costs
`price · volume / 1000`. -/
theorem compute_cost_spec_witness :
    compute_cost_for_volume (some [("EtOH", ⟨3, "uL"⟩), ("TE Buffer", ⟨2, "mL"⟩)])
        "water" 5 = none ∧
    compute_cost_for_volume (some [("EtOH", ⟨3, "uL"⟩), ("TE Buffer", ⟨2, "mL"⟩)])
        "EtOH" 5 = some 15 ∧
    compute_cost_for_volume (some [("EtOH", ⟨3, "uL"⟩), ("TE Buffer", ⟨2, "mL"⟩)])
        "TE Buffer" 500 = some 1 := by
  refine ⟨(compute_cost_spec _ "water" 5).1 ?_,
    ?_, ?_⟩
  · simp +decide [get_reagent_price, load_reagents]
  · have h := (compute_cost_spec (some [("EtOH", ⟨3, "uL"⟩), ("TE Buffer", ⟨2, "mL"⟩)])
      "EtOH" 5).2.1 3 (by simp +decide [get_reagent_price, load_reagents])
    rw [h]; norm_num
  · have h := (compute_cost_spec (some [("EtOH", ⟨3, "uL"⟩), ("TE Buffer", ⟨2, "mL"⟩)])
      "TE Buffer" 500).2.2 2 (by simp +decide [get_reagent_price, load_reagents])
    rw [h]; norm_num

/-- C10: `normalize_dna` performs no domain check that the target is
reachable by dilution: at `initial = 0.05`, `target = 0.1`,
`total volume = 15` it returns without error a DNA volume of 30 µL — more
than the 15 µL total — and a negative TE volume of −15 µL, whereas
`dna_normalization_calculator` rejects the analogous request. -/
theorem normalize_dna_no_domain_check :
    normalize_dna (1/20) (1/10) 15 = .ok ⟨30, -15, false⟩ ∧
    (15 : ℚ) < 30 ∧ (-15 : ℚ) < 0 ∧
    dna_normalization_calculator (1/20) 15 (1/10) "ng/µL" none =
      .error "Cannot concentrate by dilution; use evaporation instead" := by
  refine ⟨?_, by norm_num, by norm_num, ?_⟩
  · norm_num [normalize_dna, validate_positive_number]
  · norm_num +decide [dna_normalization_calculator, validate_positive_number, replace_char,
      ascii_lower]


/-- C1: for starting concentration `c > 0`, dilution factor `f > 1`,
integer step count `n ≥ 1` and final volume `V ≥ 0`, `serial_dilution`
returns exactly `n` rows; row `k` (1-based) carries concentration
`c / f ^ k`, and every row carries sample volume `V / f` and diluent volume
`V - V / f`, which sum to `V`.  In particular `c = 1, f = 10, n = 3` yields
the concentrations `[0.1, 0.01, 0.001]`. -/
theorem serial_dilution_spec (c f V : ℚ) (n : ℕ) (hc : 0 < c) (hf : 1 < f)
    (hn : 1 ≤ n) (hV : 0 ≤ V) :
    serial_dilution c f (n : ℚ) V "M" "µL" =
      .ok ((List.range n).map (fun i => (i + 1, c / f ^ (i + 1), V / f, V - V / f)),
        c, V / f, V - V / f, "M", "µL") ∧
    ((List.range n).map (fun i => (i + 1, c / f ^ (i + 1), V / f, V - V / f))).length = n ∧
    (∀ k, 1 ≤ k → k ≤ n →
      ((List.range n).map (fun i => (i + 1, c / f ^ (i + 1), V / f, V - V / f)))[k - 1]? =
        some (k, c / f ^ k, V / f, V - V / f)) ∧
    V / f + (V - V / f) = V ∧
    Except.map (fun r => r.1.map fun row => row.2.1) (serial_dilution 1 10 (3 : ℚ) V "M" "µL") =
      .ok [1/10, 1/100, 1/1000] := by
  have hf0 : (0 : ℚ) ≤ f := le_trans zero_le_one hf.le
  refine ⟨?_, by simp, ?_, by ring, ?_⟩
  · simp only [serial_dilution, validate_ok hc.le, validate_ok hf0,
      validate_ok (by positivity : (0:ℚ) ≤ (n : ℚ)), validate_ok hV]
    rw [if_neg (not_le.mpr hf), if_neg (by
      push_neg
      exact ⟨Rat.den_natCast n, by exact_mod_cast hn⟩)]
    simp
  · intro k hk1 hk2
    have hlt : k - 1 < n := by omega
    have hkk : k - 1 + 1 = k := by omega
    simp [List.getElem?_map, List.getElem?_range, hlt, hkk]
  · simp only [serial_dilution, validate_ok (by norm_num : (0:ℚ) ≤ 1),
      validate_ok (by norm_num : (0:ℚ) ≤ 10), validate_ok (by norm_num : (0:ℚ) ≤ 3),
      validate_ok hV]
    rw [if_neg (by norm_num), if_neg (by norm_num)]
    norm_num [Except.map, show Int.toNat 3 = 3 from rfl, List.range_succ]

/-- C1 witness: at `c = 1, f = 10, n = 3, V = 30` the recipe has rows
`(1, 0.1, 3, 27), (2, 0.01, 3, 27), (3, 0.001, 3, 27)`. -/
theorem serial_dilution_spec_witness :
    serial_dilution 1 10 (3 : ℚ) 30 "M" "µL" =
      .ok ([(1, 1/10, 3, 27), (2, 1/100, 3, 27), (3, 1/1000, 3, 27)],
        1, 3, 27, "M", "µL") := by
  have h := (serial_dilution_spec 1 10 30 3 (by norm_num) (by norm_num) (by norm_num)
    (by norm_num)).1
  rw [show ((3 : ℕ) : ℚ) = (3 : ℚ) by norm_num] at h
  rw [h]
  norm_num [List.range_succ]


/-- C2 (amended): for starting count `N0 > 0` and non-negative `N`, `t`,
`generation_time_calculator` raises `ValueError` exactly when `N ≤ N0` and
otherwise returns `(generations, doubling_time)` with
`generations = log2 (N / N0)` and `doubling_time = t / generations`.  (The
original claim allowed `N0 = 0`, where the source instead hits a
`ZeroDivisionError`; see the counterexample.) -/
theorem generation_time_spec (N0 N t : ℝ) (h0 : 0 < N0) (hN : 0 ≤ N) (ht : 0 ≤ t) :
    (N ≤ N0 → generation_time_calculator N0 N t =
      .error "Final count must be greater than starting count") ∧
    (N0 < N → generation_time_calculator N0 N t =
      .ok (Real.logb 2 (N / N0), t / Real.logb 2 (N / N0))) := by
  constructor <;> intro h <;>
    simp only [generation_time_calculator, validate_ok h0.le, validate_ok hN, validate_ok ht]
  · rw [if_pos h]
  · rw [if_neg (not_le.mpr h), if_neg h0.ne']

/-- C2 witness (amended claim): doubling from 1 to 2 cells in 5 hours is
one generation with doubling time 5. -/
theorem generation_time_spec_witness :
    generation_time_calculator 1 2 5 = .ok (1, 5) := by
  have h := (generation_time_spec 1 2 5 one_pos (by norm_num) (by norm_num)).2 (by norm_num)
  rw [h]
  norm_num

/-- C2 counterexample to the original claim: at `N0 = 0, N = 1, t = 1` (all
non-negative, and `N ≤ N0` fails) the source neither raises `ValueError`
nor returns a pair: the division `N / N0` raises `ZeroDivisionError`. -/
theorem generation_time_counterexample :
    generation_time_calculator 0 1 1 =
      .error "ZeroDivisionError: float division by zero" ∧
    ¬((1 : ℝ) ≤ 0) := by
  constructor
  · simp only [generation_time_calculator, validate_ok (le_refl (0 : ℝ)),
      validate_ok (zero_le_one' ℝ)]
    rw [if_neg (by norm_num)]
    simp
  · norm_num


/-- Evaluation of `dna_normalization_calculator` on the default `ng/µL`
unit with validated inputs: only the final concentrate-vs-dilute check
remains. -/
theorem dna_calc_ng_unfold (c v t : ℚ) (hc : 0 ≤ c) (hv : 0 ≤ v) (ht : 0 < t) :
    dna_normalization_calculator c v t "ng/µL" none =
      if c * v / t < v - 1 / 1000000000 then
        .error "Cannot concentrate by dilution; use evaporation instead"
      else .ok (c * v / t, c * v / t - v) := by
  simp only [dna_normalization_calculator, validate_ok hc, validate_ok hv, validate_ok ht.le]
  rw [if_neg (by decide), if_pos (by decide)]
  simp only [not_le.mpr ht, if_false, if_neg]

/-- C6 (amended): for non-negative current concentration `c` and volume `v`
and *strictly positive* target `t` (in ng/µL), `dna_normalization_calculator`
raises `ValueError` when the computed final volume `c·v/t` falls below
`v - 1e-9` (target exceeds current), and otherwise returns
`(final_volume, te_to_add) = (c·v/t, c·v/t - v)`; it is a pure function, so
the error case produces no result and no side effect.  (The original claim
also allowed `t = 0`, where the source raises a different `ValueError`
before the domain check; see the counterexample.) -/
theorem dna_normalization_calc_spec (c v t : ℚ) (hc : 0 ≤ c) (hv : 0 ≤ v) (ht : 0 < t) :
    (c * v / t < v - 1 / 1000000000 →
      dna_normalization_calculator c v t "ng/µL" none =
        .error "Cannot concentrate by dilution; use evaporation instead") ∧
    (¬(c * v / t < v - 1 / 1000000000) →
      dna_normalization_calculator c v t "ng/µL" none =
        .ok (c * v / t, c * v / t - v)) := by
  rw [dna_calc_ng_unfold c v t hc hv ht]
  constructor <;> intro h
  · rw [if_pos h]
  · rw [if_neg h]

/-- C6 witness (amended claim): diluting 8 ng/µL × 2 µL to 4 ng/µL needs a
final volume of 4 µL, i.e. 2 µL of TE; asking instead for 16 ng/µL is
rejected. -/
theorem dna_normalization_calc_spec_witness :
    dna_normalization_calculator 8 2 4 "ng/µL" none = .ok (4, 2) ∧
    dna_normalization_calculator 8 2 16 "ng/µL" none =
      .error "Cannot concentrate by dilution; use evaporation instead" := by
  constructor
  · have h := (dna_normalization_calc_spec 8 2 4 (by norm_num) (by norm_num)
      (by norm_num)).2 (by norm_num)
    rw [h]; norm_num
  · exact (dna_normalization_calc_spec 8 2 16 (by norm_num) (by norm_num)
      (by norm_num)).1 (by norm_num)

/-- C6 counterexample to the original claim: at `c = 1, v = 0, t = 0` (all
non-negative) the claimed error condition `c·v/t < v - 1e-9` does not hold,
yet the source does not return `(c·v/t, c·v/t - v)`: it raises the target
positivity `ValueError` first. -/
theorem dna_normalization_calc_counterexample :
    dna_normalization_calculator 1 0 0 "ng/µL" none =
      .error "Target concentration must be > 0" ∧
    ¬((1 : ℚ) * 0 / 0 < 0 - 1 / 1000000000) := by
  constructor
  · simp only [dna_normalization_calculator, validate_ok (by norm_num : (0:ℚ) ≤ 1),
      validate_ok (le_refl (0 : ℚ))]
    rw [if_neg (by decide), if_pos (by decide)]
    norm_num
  · norm_num

/-- C7: `validate_positive_number` rejects unparseable input (`none`) and
every numeric input strictly below zero, and returns every other parsed
value unchanged (zero is accepted); and every conversion formula of the
library routes each of its numeric inputs through it before computing, so a
negative value in any numeric position surfaces the same `ValueError`. -/
theorem validation_spec (q a b c d : ℚ) (r s t : ℝ) (u1 u2 : String) :
    validate_positive_number (none : Option ℚ) =
      .error "Invalid input: please enter a valid number" ∧
    (q < 0 → validate_positive_number (some q) = .error "Values must be non-negative") ∧
    (0 ≤ q → validate_positive_number (some q) = .ok q) ∧
    (a < 0 → convert_molarity a u1 u2 = .error "Values must be non-negative") ∧
    (a < 0 → convert_mass a u1 u2 = .error "Values must be non-negative") ∧
    (a < 0 → convert_volume a u1 u2 = .error "Values must be non-negative") ∧
    (a < 0 → convert_concentration a u1 u2 = .error "Values must be non-negative") ∧
    (a < 0 ∨ b < 0 ∨ c < 0 ∨ d < 0 →
      serial_dilution a b c d u1 u2 = .error "Values must be non-negative") ∧
    (a < 0 ∨ b < 0 ∨ c < 0 ∨ d < 0 →
      tissue_culture_calculator a b c d = .error "Values must be non-negative") ∧
    (a < 0 ∨ b < 0 ∨ c < 0 →
      normalize_dna a b c = .error "Values must be non-negative") ∧
    (a < 0 ∨ b < 0 ∨ c < 0 →
      dna_normalization_calculator a b c u1 none = .error "Values must be non-negative") ∧
    (r < 0 ∨ s < 0 ∨ t < 0 →
      generation_time_calculator r s t = .error "Values must be non-negative") := by
  refine ⟨rfl, fun h => validate_err h, fun h => validate_ok h,
    fun h => by simp [convert_molarity, validate_err h],
    fun h => by simp [convert_mass, validate_err h],
    fun h => by simp [convert_volume, validate_err h],
    fun h => by simp [convert_concentration, validate_err h],
    ?_, ?_, ?_, ?_, ?_⟩
  · intro h
    by_cases h1 : a < 0
    · simp [serial_dilution, validate_err h1]
    · simp only [serial_dilution, validate_ok (not_lt.mp h1)]
      by_cases h2 : b < 0
      · simp [validate_err h2]
      · simp only [validate_ok (not_lt.mp h2)]
        by_cases h3 : c < 0
        · simp [validate_err h3]
        · simp only [validate_ok (not_lt.mp h3)]
          by_cases h4 : d < 0
          · simp [validate_err h4]
          · rcases h with h | h | h | h
            exacts [absurd h h1, absurd h h2, absurd h h3, absurd h h4]
  · intro h
    by_cases h1 : a < 0
    · simp [tissue_culture_calculator, validate_err h1]
    · simp only [tissue_culture_calculator, validate_ok (not_lt.mp h1)]
      by_cases h2 : b < 0
      · simp [validate_err h2]
      · simp only [validate_ok (not_lt.mp h2)]
        by_cases h3 : c < 0
        · simp [validate_err h3]
        · simp only [validate_ok (not_lt.mp h3)]
          by_cases h4 : d < 0
          · simp [validate_err h4]
          · rcases h with h | h | h | h
            exacts [absurd h h1, absurd h h2, absurd h h3, absurd h h4]
  · intro h
    by_cases h1 : a < 0
    · simp [normalize_dna, validate_err h1]
    · simp only [normalize_dna, validate_ok (not_lt.mp h1)]
      by_cases h2 : b < 0
      · simp [validate_err h2]
      · simp only [validate_ok (not_lt.mp h2)]
        by_cases h3 : c < 0
        · simp [validate_err h3]
        · rcases h with h | h | h
          exacts [absurd h h1, absurd h h2, absurd h h3]
  · intro h
    by_cases h1 : a < 0
    · simp [dna_normalization_calculator, validate_err h1]
    · simp only [dna_normalization_calculator, validate_ok (not_lt.mp h1)]
      by_cases h2 : b < 0
      · simp [validate_err h2]
      · simp only [validate_ok (not_lt.mp h2)]
        by_cases h3 : c < 0
        · simp [validate_err h3]
        · rcases h with h | h | h
          exacts [absurd h h1, absurd h h2, absurd h h3]
  · intro h
    by_cases h1 : r < 0
    · simp [generation_time_calculator, validate_err h1]
    · simp only [generation_time_calculator, validate_ok (not_lt.mp h1)]
      by_cases h2 : s < 0
      · simp [validate_err h2]
      · simp only [validate_ok (not_lt.mp h2)]
        by_cases h3 : t < 0
        · simp [validate_err h3]
        · rcases h with h | h | h
          exacts [absurd h h1, absurd h h2, absurd h h3]

/-- C7 witness: `-2` is rejected wherever it appears, `0` is accepted. -/
theorem validation_spec_witness :
    validate_positive_number (some (-2 : ℚ)) = .error "Values must be non-negative" ∧
    validate_positive_number (some (0 : ℚ)) = .ok 0 ∧
    convert_molarity (-2) "M" "mM" = .error "Values must be non-negative" ∧
    serial_dilution 1 10 (-2) 100 "M" "mM" = .error "Values must be non-negative" ∧
    generation_time_calculator 1 (-2) 1 = .error "Values must be non-negative" := by
  have h1 := validation_spec (-2) (-2) 1 1 1 1 1 1 "M" "mM"
  have h2 := validation_spec 0 1 10 (-2) 100 1 (-2) 1 "M" "mM"
  exact ⟨h1.2.1 (by norm_num), h2.2.2.1 le_rfl,
    h1.2.2.2.1 (by norm_num),
    h2.2.2.2.2.2.2.2.1 (Or.inr (Or.inr (Or.inl (by norm_num)))),
    h2.2.2.2.2.2.2.2.2.2.2.2 (Or.inr (Or.inl (by norm_num)))⟩

/-- Success evaluation of `generation_time_calculator`: positive start,
strictly larger final count, non-negative time. -/
theorem generation_time_ok (N0 N t : ℝ) (h0 : 0 < N0) (hN : N0 < N) (ht : 0 ≤ t) :
    generation_time_calculator N0 N t =
      .ok (Real.logb 2 (N / N0), t / Real.logb 2 (N / N0)) := by
  simp only [generation_time_calculator, validate_ok h0.le,
    validate_ok (le_of_lt (lt_of_le_of_lt h0.le hN)), validate_ok ht]
  rw [if_neg (not_le.mpr hN), if_neg h0.ne']

/-- Error evaluation of `generation_time_calculator` when the final count
does not exceed the start. -/
theorem generation_time_err (N0 N t : ℝ) (h0 : 0 ≤ N0) (hN : 0 ≤ N) (ht : 0 ≤ t)
    (h : N ≤ N0) :
    generation_time_calculator N0 N t =
      .error "Final count must be greater than starting count" := by
  simp only [generation_time_calculator, validate_ok h0, validate_ok hN, validate_ok ht]
  rw [if_pos h]

/-- C4 (amended): finalizing the pending Microbiology record at index `i`
with a valid final count — one the generation-time computation accepts,
i.e. non-negative and strictly above the record's stored `N0`, with `N0`
positive and the stored elapsed time non-negative — rewrites exactly the
record at `i` (adding `N`, `generations`, `doubling_time`,
`completed_timestamp` and flipping its status from `pending` to
`completed`) and leaves every other record unchanged in its original
position; the history keeps its length, so no record is deleted.  (The
original claim promised this for every valid non-negative final count, but
a final count at or below the stored `N0` aborts the finalization and the
record stays pending; see the counterexample.) -/
theorem finalize_pending_spec (history : List Entry) (i : ℕ) (e : Entry)
    (final_N : ℝ) (now : String)
    (he : history.get? i = some e)
    (hmod : e.module = "Microbiology") (hstat : e.status = "pending")
    (hN0 : 0 < e.details.N0) (ht : 0 ≤ e.details.time_elapsed)
    (hfin : e.details.N0 < final_N) :
    finalize_pending history i final_N now =
      history.set i (finalizedEntry e final_N now) ∧
    (history.set i (finalizedEntry e final_N now)).length = history.length ∧
    (∀ j, j ≠ i → (history.set i (finalizedEntry e final_N now))[j]? = history[j]?) ∧
    (finalizedEntry e final_N now).status = "completed" ∧
    (finalizedEntry e final_N now).details.N = some final_N ∧
    (finalizedEntry e final_N now).details.generations =
      some (Real.logb 2 (final_N / e.details.N0)) ∧
    (finalizedEntry e final_N now).details.doubling_time =
      some (e.details.time_elapsed / Real.logb 2 (final_N / e.details.N0)) ∧
    (finalizedEntry e final_N now).completed_timestamp = some now ∧
    (finalizedEntry e final_N now).timestamp = e.timestamp ∧
    (finalizedEntry e final_N now).module = e.module ∧
    (finalizedEntry e final_N now).summary = e.summary ∧
    (finalizedEntry e final_N now).details.N0 = e.details.N0 ∧
    (finalizedEntry e final_N now).details.time_elapsed = e.details.time_elapsed := by
  refine ⟨?_, by simp, fun j hj => List.getElem?_set_ne (fun hij => hj hij.symm),
    rfl, rfl, rfl, rfl, rfl, rfl, rfl, rfl, rfl, rfl⟩
  simp only [finalize_pending, he, validate_ok (le_of_lt (lt_trans hN0 hfin)),
    generation_time_ok e.details.N0 final_N e.details.time_elapsed hN0 hfin ht,
    finalizedEntry]
  rw [if_neg (by simp [hmod, hstat])]

/-- C4 witness (amended claim): finalizing the sample pending record with
final count 8 rewrites it in place as the completed record. -/
theorem finalize_pending_spec_witness :
    finalize_pending [sampleEntry] 0 8 "T" = [finalizedEntry sampleEntry 8 "T"] ∧
    (finalizedEntry sampleEntry 8 "T").status = "completed" ∧
    (finalizedEntry sampleEntry 8 "T").details.N = some 8 := by
  have h := finalize_pending_spec [sampleEntry] 0 sampleEntry 8 "T" rfl rfl rfl
    (by norm_num [sampleEntry]) (by norm_num [sampleEntry]) (by norm_num [sampleEntry])
  exact ⟨h.1, h.2.2.2.1, h.2.2.2.2.1⟩

/-- C4 counterexample to the original claim: the final count 0 is valid and
non-negative, the record at index 0 is a pending Microbiology record, yet
the finalize path leaves the whole history unchanged — the status is never
flipped to `completed` — because `generation_time_calculator` rejects a
final count not exceeding the stored `N0 = 4`. -/
theorem finalize_pending_counterexample :
    ((0 : ℝ) ≤ 0 ∧ sampleEntry.module = "Microbiology" ∧
      sampleEntry.status = "pending") ∧
    finalize_pending [sampleEntry] 0 0 "T" = [sampleEntry] ∧
    (finalize_pending [sampleEntry] 0 0 "T")[0]?.map Entry.status ≠ some "completed" := by
  have hgen : generation_time_calculator 4 0 2 =
      .error "Final count must be greater than starting count" :=
    generation_time_err 4 0 2 (by norm_num) le_rfl (by norm_num) (by norm_num)
  have hfin : finalize_pending [sampleEntry] 0 0 "T" = [sampleEntry] := by
    simp [finalize_pending, sampleEntry, validate_ok (le_refl (0 : ℝ)), hgen]
  refine ⟨⟨le_rfl, rfl, rfl⟩, hfin, ?_⟩
  rw [hfin]
  simp [sampleEntry]

end LabAsst
